import Mathlib

/-!
Verification development for the EyeMouse gaze-to-action core.

Shallow embedding of the four core python modules:
  * `src/core/blink_detector.py` — EAR-based blink classification
  * `src/core/calibration.py`    — multi-point calibration and homography transform
  * `src/core/mouse_controller.py` — cursor actuation with smoothing and deadzone
  * `src/core/eye_tracker.py`    — nose-position mapper and sensitivity control

Modelling conventions:
  * python floats are modelled as rationals (`ℚ`); wall-clock time (`time.time()`)
    is passed explicitly as a rational argument;
  * `math.sqrt` / numpy norms and the float power `x ** gamma` are irrational in
    general, so functions that use them are parametrised over the square-root /
    power routine; every theorem below either holds for all such routines or
    instantiates them at inputs where the exact value is forced (e.g. `sqrt 0`);
  * `collections.deque(maxlen=n)` is a list that drops its oldest element on
    append once full; python `int()` truncates toward zero (`pyInt`);
  * division by zero, which would raise in python, evaluates to `0` in `ℚ`; no
    theorem below depends on a division-by-zero branch;
  * `cv2.findHomography` is an external numeric fit, modelled as an abstract
    parameter returning `Option Homography` (it can fail and return `None`);
  * methods become pure state-passing functions `State → args → result × State`.
-/

namespace EyeMouse

/-- python's `int()` applied to a float: truncation toward zero. -/
def pyInt (q : ℚ) : ℤ :=
  if 0 ≤ q then ⌊q⌋ else ⌈q⌉

/-- `collections.deque(maxlen := m).append x`: append and drop from the front
down to length `m`. -/
def dequeAppend (maxlen : ℕ) (buf : List ℚ) (x : ℚ) : List ℚ :=
  let b := buf ++ [x]
  if b.length ≤ maxlen then b else b.drop (b.length - maxlen)

/-- `sum(buf) / len(buf)` — the rolling-mean of a smoothing buffer. -/
def listMean (buf : List ℚ) : ℚ :=
  buf.sum / (buf.length : ℚ)

/-! ## blink_detector.py -/

/-- `BlinkType` enum of `blink_detector.py`. -/
inductive BlinkType
  | none
  | left
  | right
  | both
deriving DecidableEq, Repr

/-- `BlinkEvent` dataclass: blink type, timestamp and the two smoothed EARs. -/
structure BlinkEvent where
  blink_type : BlinkType
  timestamp : ℚ
  left_ear : ℚ
  right_ear : ℚ
deriving DecidableEq, Repr

/-- Full mutable state (plus configuration) of `BlinkDetector`. -/
structure BlinkDetector where
  ear_threshold : ℚ
  consecutive_frames : ℕ
  cooldown : ℚ
  smoothing_samples : ℕ
  left_closed_count : ℕ
  right_closed_count : ℕ
  left_was_closed : Bool
  right_was_closed : Bool
  last_blink_time : ℚ
  left_ear_buffer : List ℚ
  right_ear_buffer : List ℚ
  left_ear : ℚ
  right_ear : ℚ
deriving DecidableEq, Repr

/-- `BlinkDetector.__init__`. -/
def initBlinkDetector (ear_threshold : ℚ) (consecutive_frames : ℕ)
    (cooldown : ℚ) (smoothing_samples : ℕ) : BlinkDetector :=
  { ear_threshold := ear_threshold
    consecutive_frames := consecutive_frames
    cooldown := cooldown
    smoothing_samples := smoothing_samples
    left_closed_count := 0
    right_closed_count := 0
    left_was_closed := false
    right_was_closed := false
    last_blink_time := 0
    left_ear_buffer := []
    right_ear_buffer := []
    left_ear := 0
    right_ear := 0 }

/-- `BlinkDetector._reset`. -/
def BlinkDetector.resetCounts (d : BlinkDetector) : BlinkDetector :=
  { d with
    left_closed_count := 0
    right_closed_count := 0
    left_was_closed := false
    right_was_closed := false }

/-- `BlinkDetector._check_blinks`: the three sequential blocks of the python
method, updating counters/latches and computing the resulting `BlinkType`. -/
def BlinkDetector.checkBlinks (d : BlinkDetector) (left_closed right_closed : Bool) :
    BlinkType × BlinkDetector :=
  -- block 1: left eye blink (right eye must be open)
  let s1 : BlinkType × BlinkDetector :=
    if left_closed && !right_closed then
      (BlinkType.none,
        { d with left_closed_count := d.left_closed_count + 1, left_was_closed := true })
    else if d.left_was_closed && !left_closed then
      ((if d.consecutive_frames ≤ d.left_closed_count then BlinkType.left else BlinkType.none),
        { d with left_closed_count := 0, left_was_closed := false })
    else (BlinkType.none, d)
  let result := s1.1
  let d1 := s1.2
  -- block 2: right eye blink (left eye must be open)
  let s2 : BlinkType × BlinkDetector :=
    if right_closed && !left_closed then
      (result,
        { d1 with right_closed_count := d1.right_closed_count + 1, right_was_closed := true })
    else if d1.right_was_closed && !right_closed then
      ((if d1.consecutive_frames ≤ d1.right_closed_count then
          (if result = BlinkType.left then BlinkType.both else BlinkType.right)
        else result),
        { d1 with right_closed_count := 0, right_was_closed := false })
    else (result, d1)
  let result2 := s2.1
  let d2 := s2.2
  -- block 3: both eyes closed
  if left_closed && right_closed then
    (result2,
      { d2 with
        left_closed_count := d2.left_closed_count + 1
        right_closed_count := d2.right_closed_count + 1 })
  else if d2.left_was_closed && d2.right_was_closed then
    if !left_closed && !right_closed then
      ((if d2.consecutive_frames ≤ min d2.left_closed_count d2.right_closed_count then
          BlinkType.both
        else result2),
        d2.resetCounts)
    else (result2, d2)
  else (result2, d2)

/-- The EAR-smoothing step of `detect`: append the raw EARs to the bounded
buffers and store the rolling means in `_left_ear` / `_right_ear`. -/
def BlinkDetector.smoothed (d : BlinkDetector) (left_ear_raw right_ear_raw : ℚ) :
    BlinkDetector :=
  { d with
    left_ear_buffer := dequeAppend d.smoothing_samples d.left_ear_buffer left_ear_raw
    right_ear_buffer := dequeAppend d.smoothing_samples d.right_ear_buffer right_ear_raw
    left_ear := listMean (dequeAppend d.smoothing_samples d.left_ear_buffer left_ear_raw)
    right_ear := listMean (dequeAppend d.smoothing_samples d.right_ear_buffer right_ear_raw) }

/-- `BlinkDetector.detect`, with `_calculate_ear` factored out: the two raw EAR
values of the frame are passed directly, and `time.time()` is the explicit
argument `now`. Returns the optional event and the updated detector state. -/
def BlinkDetector.detect (d : BlinkDetector) (now left_ear_raw right_ear_raw : ℚ) :
    Option BlinkEvent × BlinkDetector :=
  if now - d.last_blink_time < d.cooldown then (Option.none, d)
  else
    let d1 := d.smoothed left_ear_raw right_ear_raw
    let s := d1.checkBlinks (decide (d1.left_ear < d1.ear_threshold))
      (decide (d1.right_ear < d1.ear_threshold))
    if s.1 ≠ BlinkType.none then
      (Option.some ⟨s.1, now, d1.left_ear, d1.right_ear⟩, { s.2 with last_blink_time := now })
    else (Option.none, s.2)

/-- `BlinkDetector.get_ear_values`. -/
def BlinkDetector.get_ear_values (d : BlinkDetector) : ℚ × ℚ :=
  (d.left_ear, d.right_ear)

/-- Run the detector over a list of frames `(now, left_ear_raw, right_ear_raw)`,
collecting the emitted events in order. -/
def runDetector : BlinkDetector → List (ℚ × ℚ × ℚ) → BlinkDetector × List BlinkEvent
  | d, [] => (d, [])
  | d, f :: rest =>
    let s := d.detect f.1 f.2.1 f.2.2
    let r := runDetector s.2 rest
    (r.1, s.1.toList ++ r.2)

/-! ## blink_detector.py: `_calculate_ear` -/

/-- Squared euclidean distance of two 2-D points; `np.linalg.norm (a - b)` is
`sqrt (sqDist a b)` for the abstract square-root routine. -/
def sqDist (a b : ℚ × ℚ) : ℚ :=
  (a.1 - b.1) * (a.1 - b.1) + (a.2 - b.2) * (a.2 - b.2)

/-- `BlinkDetector._calculate_ear`, parametrised over the square-root routine
`sqrt` used by `np.linalg.norm`. Guard paths: fewer than 6 landmark points, or
horizontal distance `< 1` (pixel units), return the neutral open value `0.5`. -/
def calculate_ear (sqrt : ℚ → ℚ) (landmarks : List (ℚ × ℚ)) : ℚ :=
  if landmarks.length < 6 then 1/2
  else if sqrt (sqDist (landmarks.getD 0 (0, 0)) (landmarks.getD 3 (0, 0))) < 1 then 1/2
  else
    (sqrt (sqDist (landmarks.getD 1 (0, 0)) (landmarks.getD 5 (0, 0))) +
     sqrt (sqDist (landmarks.getD 2 (0, 0)) (landmarks.getD 4 (0, 0)))) /
    (2 * sqrt (sqDist (landmarks.getD 0 (0, 0)) (landmarks.getD 3 (0, 0))))

/-! ## calibration.py -/

/-- `GazeQuality` enum. -/
inductive GazeQuality
  | no_gaze
  | off_target
  | near_target
  | on_target
deriving DecidableEq, Repr

/-- `CalibrationPoint` dataclass. -/
structure CalibrationPoint where
  screen_x : ℤ
  screen_y : ℤ
  gaze_x : ℚ
  gaze_y : ℚ
deriving DecidableEq, Repr

/-- A 3×3 homography matrix (`cv2.findHomography` result / `_transform`). -/
structure Homography where
  m00 : ℚ
  m01 : ℚ
  m02 : ℚ
  m10 : ℚ
  m11 : ℚ
  m12 : ℚ
  m20 : ℚ
  m21 : ℚ
  m22 : ℚ
deriving DecidableEq, Repr

/-- `cv2.perspectiveTransform` of a single point by a 3×3 matrix: homogeneous
application followed by the perspective divide. (In `ℚ`, division by a zero
denominator evaluates to `0`.) -/
def perspectiveTransform (m : Homography) (g : ℚ × ℚ) : ℚ × ℚ :=
  let w := m.m20 * g.1 + m.m21 * g.2 + m.m22
  ((m.m00 * g.1 + m.m01 * g.2 + m.m02) / w,
   (m.m10 * g.1 + m.m11 * g.2 + m.m12) / w)

/-- `np.clip` on a scalar. -/
def npClip (v lo hi : ℚ) : ℚ :=
  min (max v lo) hi

/-- Full mutable state (plus configuration) of `Calibrator`. -/
structure Calibrator where
  screen_width : ℤ
  screen_height : ℤ
  points_count : ℕ
  hold_duration : ℚ
  margin_percent : ℚ
  initial_tolerance : ℚ
  min_samples : ℕ
  target_points : List (ℤ × ℤ)
  collected_points : List CalibrationPoint
  gaze_samples : List (ℚ × ℚ)
  on_target_time : ℚ
  last_update_time : ℚ
  gaze_quality : GazeQuality
  is_active : Bool
  current_index : ℕ
  transform : Option Homography
deriving DecidableEq, Repr

/-- `Calibrator._generate_grid`.  For `points_count = 9` a 3×3 grid inset by
the margins; for `5` the centre plus the four inset corners; otherwise a
`⌊sqrt n⌋ × ⌊sqrt n⌋` grid. -/
def generate_grid (screen_width screen_height : ℤ) (points_count : ℕ)
    (margin_percent : ℚ) : List (ℤ × ℤ) :=
  let margin_x := pyInt ((screen_width : ℚ) * margin_percent)
  let margin_y := pyInt ((screen_height : ℚ) * margin_percent)
  if points_count = 5 then
    [ (screen_width / 2, screen_height / 2),
      (margin_x, margin_y),
      (screen_width - margin_x, margin_y),
      (margin_x, screen_height - margin_y),
      (screen_width - margin_x, screen_height - margin_y) ]
  else
    let rc : ℕ := if points_count = 9 then 3 else Nat.sqrt points_count
    let inner_w := screen_width - 2 * margin_x
    let inner_h := screen_height - 2 * margin_y
    ((List.range rc).flatMap fun row =>
      (List.range rc).map fun col =>
        let x := if 1 < rc then
            margin_x + pyInt ((inner_w : ℚ) * col / (max 1 (rc - 1) : ℕ))
          else screen_width / 2
        let y := if 1 < rc then
            margin_y + pyInt ((inner_h : ℚ) * row / (max 1 (rc - 1) : ℕ))
          else screen_height / 2
        (x, y))

/-- `Calibrator.__init__`. -/
def initCalibrator (screen_width screen_height : ℤ) (points_count : ℕ)
    (hold_duration margin_percent : ℚ) : Calibrator :=
  { screen_width := screen_width
    screen_height := screen_height
    points_count := points_count
    hold_duration := hold_duration
    margin_percent := margin_percent
    initial_tolerance := 35/100
    min_samples := 20
    target_points := generate_grid screen_width screen_height points_count margin_percent
    collected_points := []
    gaze_samples := []
    on_target_time := 0
    last_update_time := 0
    gaze_quality := GazeQuality.no_gaze
    is_active := false
    current_index := 0
    transform := Option.none }

/-- `Calibrator.start` (`time.time()` passed explicitly as `now`). -/
def Calibrator.start (c : Calibrator) (now : ℚ) : Calibrator :=
  { c with
    is_active := true
    current_index := 0
    collected_points := []
    gaze_samples := []
    on_target_time := 0
    last_update_time := now
    gaze_quality := GazeQuality.no_gaze }

/-- `Calibrator.stop`. -/
def Calibrator.stop (c : Calibrator) : Calibrator :=
  { c with is_active := false }

/-- `Calibrator._is_gaze_on_target`, parametrised over the square-root routine
of `math.sqrt`: returns `(distance < initial_tolerance, distance)` with the
distance measured in normalised screen space. -/
def Calibrator.is_gaze_on_target (c : Calibrator) (sqrt : ℚ → ℚ)
    (gaze : ℚ × ℚ) (target : ℤ × ℤ) : Bool × ℚ :=
  let target_norm_x := (target.1 : ℚ) / (c.screen_width : ℚ)
  let target_norm_y := (target.2 : ℚ) / (c.screen_height : ℚ)
  let dx := gaze.1 - target_norm_x
  let dy := gaze.2 - target_norm_y
  let distance := sqrt (dx * dx + dy * dy)
  (decide (distance < c.initial_tolerance), distance)

/-- `Calibrator._finalize`, parametrised over the homography fit
(`cv2.findHomography`, which may fail and yield `None`). -/
def Calibrator.finalize (c : Calibrator)
    (fit : List CalibrationPoint → Option Homography) : Calibrator :=
  let c1 := { c with is_active := false }
  if c1.collected_points.length < 4 then c1
  else { c1 with transform := fit c1.collected_points }

/-- `Calibrator.update`, parametrised over `math.sqrt` and the homography fit,
with `time.time()` passed as `now`.  Returns the updated state and the python
return value `(completed, current_target_point, progress)`. -/
def Calibrator.update (c : Calibrator) (sqrt : ℚ → ℚ)
    (fit : List CalibrationPoint → Option Homography) (now : ℚ)
    (gaze : Option (ℚ × ℚ)) : Calibrator × (Bool × Option (ℤ × ℤ) × ℚ) :=
  if !c.is_active then (c, (true, Option.none, 1))
  else if c.target_points.length ≤ c.current_index then
    (c.finalize fit, (true, Option.none, 1))
  else
    let current_target := c.target_points.getD c.current_index (0, 0)
    let dt := now - c.last_update_time
    let c1 := { c with last_update_time := now }
    let c2 : Calibrator :=
      match gaze with
      | Option.none => { c1 with gaze_quality := GazeQuality.no_gaze }
      | Option.some g =>
        let s := c1.is_gaze_on_target sqrt g current_target
        if s.1 then
          { c1 with
            gaze_quality := GazeQuality.on_target
            on_target_time := c1.on_target_time + dt
            gaze_samples := c1.gaze_samples ++ [g] }
        else if s.2 < c1.initial_tolerance * (3/2) then
          { c1 with gaze_quality := GazeQuality.near_target }
        else
          { c1 with gaze_quality := GazeQuality.off_target }
    let progress := min 1 (c2.on_target_time / c2.hold_duration)
    if c2.hold_duration ≤ c2.on_target_time ∧ c2.min_samples ≤ c2.gaze_samples.length then
      let n : ℚ := (c2.gaze_samples.length : ℚ)
      let avg_x := (c2.gaze_samples.map Prod.fst).sum / n
      let avg_y := (c2.gaze_samples.map Prod.snd).sum / n
      let c3 : Calibrator :=
        { c2 with
          collected_points := c2.collected_points ++
            [⟨current_target.1, current_target.2, avg_x, avg_y⟩]
          current_index := c2.current_index + 1
          gaze_samples := []
          on_target_time := 0
          gaze_quality := GazeQuality.no_gaze }
      if c3.target_points.length ≤ c3.current_index then
        (c3.finalize fit, (true, Option.none, 1))
      else (c3, (false, Option.some current_target, progress))
    else (c2, (false, Option.some current_target, progress))

/-- `Calibrator.transform_gaze`: fallback naive scaling when no transform is
fit (python `int()` truncation, **no clamping**), otherwise the perspective
transform with `np.clip` into `[0, screen_dim - 1]` followed by `int()`. -/
def Calibrator.transform_gaze (c : Calibrator) (gaze : ℚ × ℚ) : ℤ × ℤ :=
  match c.transform with
  | Option.none =>
    (pyInt (gaze.1 * (c.screen_width : ℚ)), pyInt (gaze.2 * (c.screen_height : ℚ)))
  | Option.some m =>
    let r := perspectiveTransform m gaze
    (pyInt (npClip r.1 0 ((c.screen_width : ℚ) - 1)),
     pyInt (npClip r.2 0 ((c.screen_height : ℚ) - 1)))

/-- `Calibrator.is_calibrated`. -/
def Calibrator.is_calibrated (c : Calibrator) : Bool :=
  c.transform.isSome

/-- The JSON document written by `Calibrator.save` / read by `Calibrator.load`. -/
structure CalibrationFile where
  transform : Homography
  points : List CalibrationPoint
  screen_size : ℤ × ℤ
deriving DecidableEq, Repr

/-- `Calibrator.save`: fails (returns `False` / no file) when no transform is
fit, otherwise writes the transform, the collected points and the screen size. -/
def Calibrator.save (c : Calibrator) : Option CalibrationFile :=
  match c.transform with
  | Option.none => Option.none
  | Option.some m => Option.some ⟨m, c.collected_points, (c.screen_width, c.screen_height)⟩

/-- `Calibrator.load` applied to a successfully parsed file: restores the
transform matrix and the collected points (the stored screen size is read but
never applied — a documented limitation). -/
def Calibrator.load (c : Calibrator) (f : CalibrationFile) : Calibrator :=
  { c with
    transform := Option.some f.transform
    collected_points := f.points }

/-! ## mouse_controller.py -/

/-- Full mutable state (plus configuration) of `MouseController`. -/
structure MouseController where
  screen_width : ℤ
  screen_height : ℤ
  sensitivity : ℚ
  dead_zone : ℚ
  acceleration_curve : ℚ
  smoothing_samples : ℕ
  x_buffer : List ℚ
  y_buffer : List ℚ
  last_x : Option ℚ
  last_y : Option ℚ
  enabled : Bool
deriving DecidableEq, Repr

/-- `MouseController.reset`: clear the smoothing buffers and the last emitted
position. -/
def MouseController.reset (m : MouseController) : MouseController :=
  { m with x_buffer := [], y_buffer := [], last_x := Option.none, last_y := Option.none }

/-- `MouseController.set_enabled`: set the flag and, when enabling, `reset()`. -/
def MouseController.set_enabled (m : MouseController) (enabled : Bool) : MouseController :=
  let m1 := { m with enabled := enabled }
  if enabled then m1.reset else m1

/-- The clamped absolute-pixel target of `move_to_gaze` before smoothing:
acceleration curve (the float power `|d| ** γ` abstracted as `powc d γ`),
sensitivity, mapping to screen coordinates and clamping to screen bounds. -/
def MouseController.rawTarget (m : MouseController) (powc : ℚ → ℚ → ℚ)
    (gaze_x gaze_y : ℚ) : ℚ × ℚ :=
  let dx := gaze_x - 1/2
  let dy := gaze_y - 1/2
  let dx := if m.acceleration_curve ≠ 1 then
      (if 0 ≤ dx then 1 else -1) * powc |dx| m.acceleration_curve
    else dx
  let dy := if m.acceleration_curve ≠ 1 then
      (if 0 ≤ dy then 1 else -1) * powc |dy| m.acceleration_curve
    else dy
  let dx := dx * m.sensitivity
  let dy := dy * m.sensitivity
  let target_x := (1/2 + dx) * (m.screen_width : ℚ)
  let target_y := (1/2 + dy) * (m.screen_height : ℚ)
  (max 0 (min ((m.screen_width : ℚ) - 1) target_x),
   max 0 (min ((m.screen_height : ℚ) - 1) target_y))

/-- `MouseController.move_to_gaze`, parametrised over the float power routine
`powc` and `math.sqrt`.  Returns the updated state and the cursor move emitted
to `pyautogui.moveTo` (`none` when disabled or suppressed by the deadzone; the
success path of the swallowed-exception `try` block is modelled). -/
def MouseController.move_to_gaze (m : MouseController) (powc : ℚ → ℚ → ℚ)
    (sqrt : ℚ → ℚ) (gaze_x gaze_y : ℚ) : MouseController × Option (ℤ × ℤ) :=
  if !m.enabled then (m, Option.none)
  else
    let t := m.rawTarget powc gaze_x gaze_y
    let xb := dequeAppend m.smoothing_samples m.x_buffer t.1
    let yb := dequeAppend m.smoothing_samples m.y_buffer t.2
    let smooth_x := listMean xb
    let smooth_y := listMean yb
    let m1 := { m with x_buffer := xb, y_buffer := yb }
    let suppressed : Bool :=
      match m1.last_x, m1.last_y with
      | Option.some lx, Option.some ly =>
        let ex := (smooth_x - lx) / (m1.screen_width : ℚ)
        let ey := (smooth_y - ly) / (m1.screen_height : ℚ)
        decide (sqrt (ex * ex + ey * ey) < m1.dead_zone)
      | _, _ => false
    if suppressed then (m1, Option.none)
    else
      ({ m1 with last_x := Option.some smooth_x, last_y := Option.some smooth_y },
       Option.some (pyInt smooth_x, pyInt smooth_y))

/-! ## eye_tracker.py -/

/-- Class-level base active-region bounds of `EyeTracker`. -/
def base_min_x : ℚ := 3/10

/-- Class-level base active-region bounds of `EyeTracker`. -/
def base_max_x : ℚ := 7/10

/-- Class-level base active-region bounds of `EyeTracker`. -/
def base_min_y : ℚ := 3/10

/-- Class-level base active-region bounds of `EyeTracker`. -/
def base_max_y : ℚ := 7/10

/-- The mutable tracking state of `EyeTracker` (active-region bounds,
sensitivity and the smoothing state; the mediapipe handles are external). -/
structure EyeTracker where
  min_x : ℚ
  max_x : ℚ
  min_y : ℚ
  max_y : ℚ
  sensitivity : ℚ
  smooth_x : ℚ
  smooth_y : ℚ
  smooth_factor : ℚ
  history_x : List ℚ
  history_y : List ℚ
  history_size : ℕ
deriving DecidableEq, Repr

/-- `EyeTracker.set_sensitivity`: clamp to `[1, 10]` and recompute the active
region from the fixed base rectangle, shrunk by the clamped sensitivity about
the base centre. -/
def EyeTracker.set_sensitivity (t : EyeTracker) (value : ℚ) : EyeTracker :=
  let s := max 1 (min 10 value)
  let base_w := base_max_x - base_min_x
  let base_h := base_max_y - base_min_y
  let new_w := base_w / s
  let new_h := base_h / s
  let cx := (base_min_x + base_max_x) / 2
  let cy := (base_min_y + base_max_y) / 2
  { t with
    sensitivity := s
    min_x := cx - new_w / 2
    max_x := cx + new_w / 2
    min_y := cy - new_h / 2
    max_y := cy + new_h / 2 }

/-! ## Synthetic input sequences for the blink classifier -/

/-- One frame of the synthetic single-eye-blink experiment at step `i`:
timestamp `t0 + i`, with the blinking eye's raw EAR `e_low` and the open eye's
raw EAR `e_high` (sides chosen by `left_eye`). -/
def closedFrame (left_eye : Bool) (t0 e_low e_high : ℚ) (i : ℕ) : ℚ × ℚ × ℚ :=
  if left_eye then (t0 + i, e_low, e_high) else (t0 + i, e_high, e_low)

/-- The synthetic sequence of C4: `N` consecutive frames with one eye's raw
EAR at `e_low` (below threshold) and the other at `e_high`, followed by one
frame with both eyes at `e_high`. -/
def singleEyeRun (left_eye : Bool) (t0 : ℚ) (N : ℕ) (e_low e_high : ℚ) :
    List (ℚ × ℚ × ℚ) :=
  ((List.range N).map (closedFrame left_eye t0 e_low e_high)) ++
    [(t0 + N, e_high, e_high)]

/-- The detector state reached after `i` frames of the left-eye synthetic
sequence (smoothing window 3): counter `i` on the closed eye, latch set,
smoothing buffers holding the last `min i 3` raw values. -/
def closedState (left_eye : Bool) (th : ℚ) (k : ℕ) (cd e_low e_high : ℚ) :
    ℕ → BlinkDetector
  | 0 => initBlinkDetector th k cd 3
  | i + 1 =>
    { ear_threshold := th
      consecutive_frames := k
      cooldown := cd
      smoothing_samples := 3
      left_closed_count := if left_eye then i + 1 else 0
      right_closed_count := if left_eye then 0 else i + 1
      left_was_closed := left_eye
      right_was_closed := !left_eye
      last_blink_time := 0
      left_ear_buffer := List.replicate (min (i + 1) 3) (if left_eye then e_low else e_high)
      right_ear_buffer := List.replicate (min (i + 1) 3) (if left_eye then e_high else e_low)
      left_ear := if left_eye then e_low else e_high
      right_ear := if left_eye then e_high else e_low }

/-! ## Concrete example states used to evaluate the model -/

/-- A concrete uncalibrated `Calibrator` on a 100×100 screen (no transform
fit yet), exercising the fallback path of `transform_gaze`. -/
def fallbackCal : Calibrator :=
  initCalibrator 100 100 9 2 (12/100)

/-- The identity homography. -/
def idH : Homography :=
  ⟨1, 0, 0, 0, 1, 0, 0, 0, 1⟩

/-- A concrete calibrated `Calibrator`: the 100×100 screen calibrator with the
identity transform fit and four collected points. -/
def calibratedCal : Calibrator :=
  { fallbackCal with
    transform := Option.some idH
    collected_points :=
      [⟨12, 12, 12/100, 12/100⟩, ⟨50, 12, 1/2, 12/100⟩,
       ⟨88, 12, 88/100, 12/100⟩, ⟨12, 50, 12/100, 1/2⟩] }

/-- The persistence file `calibratedCal.save` writes. -/
def savedFile : CalibrationFile :=
  ⟨idH, calibratedCal.collected_points, (100, 100)⟩

/-- A concrete uncalibrated `Calibrator` on a 100×100 screen using the
5-point cross layout (first target: the screen centre `(50, 50)`). -/
def cal5 : Calibrator :=
  initCalibrator 100 100 5 2 (12/100)

/-- A concrete `MouseController` in its just-constructed state (1920×1080
screen, default settings, disabled). -/
def mouseCtl : MouseController :=
  { screen_width := 1920
    screen_height := 1080
    sensitivity := 2
    dead_zone := 15/1000
    acceleration_curve := 3/2
    smoothing_samples := 5
    x_buffer := []
    y_buffer := []
    last_x := Option.none
    last_y := Option.none
    enabled := false }

end EyeMouse

namespace EyeMouse

/-! ## Shared helper lemmas -/

/-- `pyInt` of a rational inside `[0, B]` lands in the integer range `[0, B]`. -/
lemma pyInt_bounds (q : ℚ) (B : ℤ) (h0 : 0 ≤ q) (hB : q ≤ (B : ℚ)) :
    0 ≤ pyInt q ∧ pyInt q ≤ B := by
  unfold pyInt
  rw [if_pos h0]
  constructor
  · exact Int.floor_nonneg.mpr h0
  · have := Int.floor_le_floor hB
    simpa using this

/-! ## C7: `_calculate_ear` guard behaviour -/

/-- C7: for any square-root routine and any landmark list, if fewer than 6
points are supplied or the computed horizontal eye width is below the epsilon
(`1`, in pixel units), `_calculate_ear` returns the fixed neutral open value
`1/2` — in particular never `0` (and, being a `ℚ`-valued total function, never
NaN/Inf and never an exception; purity is immediate from the embedding). -/
theorem calculate_ear_guard_neutral (sqrt : ℚ → ℚ) (landmarks : List (ℚ × ℚ))
    (h : landmarks.length < 6 ∨
      sqrt (sqDist (landmarks.getD 0 (0, 0)) (landmarks.getD 3 (0, 0))) < 1) :
    calculate_ear sqrt landmarks = 1/2 ∧ calculate_ear sqrt landmarks ≠ 0 := by
  unfold calculate_ear
  by_cases hlen : landmarks.length < 6
  · rw [if_pos hlen]
    exact ⟨rfl, by norm_num⟩
  · rw [if_neg hlen]
    rcases h with h | h
    · exact absurd h hlen
    · rw [if_pos h]
      exact ⟨rfl, by norm_num⟩

/-- C7 witness: the guard at a concrete degenerate input (an empty landmark
list with the identity as square-root routine). -/
theorem calculate_ear_guard_neutral_witness :
    calculate_ear id [] = 1/2 ∧ calculate_ear id [] ≠ 0 :=
  calculate_ear_guard_neutral id [] (Or.inl (by norm_num))

/-! ## C9: `EyeTracker.set_sensitivity` -/

/-- C9: `set_sensitivity` clamps its argument into `[1, 10]` (leaving an
in-range value unchanged) and recomputes the active region from the fixed base
rectangle so that the new rectangle keeps the base rectangle's centre, on both
axes, for every input value. -/
theorem set_sensitivity_clamps_and_keeps_center (t : EyeTracker) (value : ℚ) :
    1 ≤ (t.set_sensitivity value).sensitivity ∧
    (t.set_sensitivity value).sensitivity ≤ 10 ∧
    (1 ≤ value → value ≤ 10 → (t.set_sensitivity value).sensitivity = value) ∧
    ((t.set_sensitivity value).min_x + (t.set_sensitivity value).max_x) / 2
      = (base_min_x + base_max_x) / 2 ∧
    ((t.set_sensitivity value).min_y + (t.set_sensitivity value).max_y) / 2
      = (base_min_y + base_max_y) / 2 := by
  unfold EyeTracker.set_sensitivity
  refine ⟨le_max_left _ _, max_le (by norm_num) (min_le_left _ _), ?_, by ring, by ring⟩
  intro h1 h10
  rw [min_eq_right h10, max_eq_right h1]

/-! ## C10: the cooldown guard freezes the whole detector -/

/-- C10: while within the cooldown window (`now - last_blink_time < cooldown`),
`detect` returns no event and leaves the detector state — smoothing buffers,
stored smoothed EARs (hence `get_ear_values`), closed-frame counters, latches
and the last-blink timestamp — completely unchanged. -/
theorem detect_cooldown_freezes_state (d : BlinkDetector) (now left_ear_raw right_ear_raw : ℚ)
    (h : now - d.last_blink_time < d.cooldown) :
    d.detect now left_ear_raw right_ear_raw = (Option.none, d) ∧
    (d.detect now left_ear_raw right_ear_raw).2.get_ear_values = d.get_ear_values := by
  unfold BlinkDetector.detect
  rw [if_pos h]
  exact ⟨rfl, rfl⟩

/-- C10 witness: a freshly initialised detector (last blink at `0`) queried at
time `1/10 < cooldown = 35/100` is returned unchanged, with no event. -/
theorem detect_cooldown_freezes_state_witness :
    (initBlinkDetector (21/100) 2 (35/100) 3).detect (1/10) (1/10) (1/2)
        = (Option.none, initBlinkDetector (21/100) 2 (35/100) 3) ∧
    ((initBlinkDetector (21/100) 2 (35/100) 3).detect (1/10) (1/10) (1/2)).2.get_ear_values
        = (initBlinkDetector (21/100) 2 (35/100) 3).get_ear_values :=
  detect_cooldown_freezes_state (initBlinkDetector (21/100) 2 (35/100) 3) (1/10) (1/10) (1/2)
    (by norm_num [initBlinkDetector])

/-! ## C8: disable/re-enable clears the smoothing history -/

/-- C8: after `set_enabled(False)` then `set_enabled(True)` the smoothing
buffers are empty and the last emitted position is cleared; consequently the
first `move_to_gaze` after re-enable is not deadzone-compared against any
pre-disable position (a move is emitted) and is not averaged against
pre-disable samples: its smoothing buffer holds exactly the one fresh target
and the emitted position is that target itself. -/
theorem reenable_clears_smoothing (m : MouseController) (powc : ℚ → ℚ → ℚ)
    (sqrt : ℚ → ℚ) (gaze_x gaze_y : ℚ) (hs : 1 ≤ m.smoothing_samples) :
    ((m.set_enabled false).set_enabled true).x_buffer = [] ∧
    ((m.set_enabled false).set_enabled true).y_buffer = [] ∧
    ((m.set_enabled false).set_enabled true).last_x = Option.none ∧
    ((m.set_enabled false).set_enabled true).last_y = Option.none ∧
    (((m.set_enabled false).set_enabled true).move_to_gaze powc sqrt gaze_x gaze_y).2 =
      Option.some
        (pyInt (((m.set_enabled false).set_enabled true).rawTarget powc gaze_x gaze_y).1,
         pyInt (((m.set_enabled false).set_enabled true).rawTarget powc gaze_x gaze_y).2) ∧
    (((m.set_enabled false).set_enabled true).move_to_gaze powc sqrt gaze_x gaze_y).1.x_buffer
      = [(((m.set_enabled false).set_enabled true).rawTarget powc gaze_x gaze_y).1] ∧
    (((m.set_enabled false).set_enabled true).move_to_gaze powc sqrt gaze_x gaze_y).1.y_buffer
      = [(((m.set_enabled false).set_enabled true).rawTarget powc gaze_x gaze_y).2] := by
  have hm2 : (m.set_enabled false).set_enabled true =
      { m with
        enabled := true
        x_buffer := []
        y_buffer := []
        last_x := Option.none
        last_y := Option.none } := by
    simp [MouseController.set_enabled, MouseController.reset]
  rw [hm2]
  refine ⟨rfl, rfl, rfl, rfl, ?_, ?_, ?_⟩ <;>
    simp [MouseController.move_to_gaze, dequeAppend, listMean, hs]

/-- C8 witness: the concrete default controller, re-enabled, moved to gaze
`(3/4, 1/4)` with the identity power/square-root routines. -/
theorem reenable_clears_smoothing_witness :
    ((mouseCtl.set_enabled false).set_enabled true).x_buffer = [] ∧
    ((mouseCtl.set_enabled false).set_enabled true).y_buffer = [] ∧
    ((mouseCtl.set_enabled false).set_enabled true).last_x = Option.none ∧
    ((mouseCtl.set_enabled false).set_enabled true).last_y = Option.none ∧
    (((mouseCtl.set_enabled false).set_enabled true).move_to_gaze
        (fun x _ => x) id (3/4) (1/4)).2 =
      Option.some
        (pyInt (((mouseCtl.set_enabled false).set_enabled true).rawTarget
            (fun x _ => x) (3/4) (1/4)).1,
         pyInt (((mouseCtl.set_enabled false).set_enabled true).rawTarget
            (fun x _ => x) (3/4) (1/4)).2) ∧
    (((mouseCtl.set_enabled false).set_enabled true).move_to_gaze
        (fun x _ => x) id (3/4) (1/4)).1.x_buffer
      = [(((mouseCtl.set_enabled false).set_enabled true).rawTarget
            (fun x _ => x) (3/4) (1/4)).1] ∧
    (((mouseCtl.set_enabled false).set_enabled true).move_to_gaze
        (fun x _ => x) id (3/4) (1/4)).1.y_buffer
      = [(((mouseCtl.set_enabled false).set_enabled true).rawTarget
            (fun x _ => x) (3/4) (1/4)).2] :=
  reenable_clears_smoothing mouseCtl (fun x _ => x) id (3/4) (1/4)
    (by norm_num [mouseCtl])

/-! ## C2: `transform_gaze` clamping -/

/-- C2 counterexample: the fallback path (no transform fit) does **not** clamp.
On the concrete 100×100 uncalibrated calibrator, the gaze `(2, 1/2)` is mapped
to `(200, 50)`, and `200` lies outside the valid pixel range `[0, 99]` — so
`transform_gaze` does not always return a point within screen bounds. -/
theorem transform_gaze_fallback_unclamped :
    fallbackCal.transform_gaze (2, 1/2) = (200, 50) ∧
    ¬ (0 ≤ (fallbackCal.transform_gaze (2, 1/2)).1 ∧
       (fallbackCal.transform_gaze (2, 1/2)).1 ≤ fallbackCal.screen_width - 1 ∧
       0 ≤ (fallbackCal.transform_gaze (2, 1/2)).2 ∧
       (fallbackCal.transform_gaze (2, 1/2)).2 ≤ fallbackCal.screen_height - 1) := by
  norm_num [fallbackCal, initCalibrator, Calibrator.transform_gaze, pyInt]

/-- C2 amended: when a homography transform has been fit (and the screen
dimensions are at least 1 pixel), `transform_gaze` returns a point clamped
into `[0, screen_width-1] × [0, screen_height-1]` for every input gaze pair;
when no transform exists, the naive fallback `int(gaze * screen_dim)` is
returned **unclamped** and can leave the screen (see the counterexample). -/
theorem transform_gaze_clamped_with_homography (c : Calibrator) (m : Homography)
    (gaze : ℚ × ℚ) (ht : c.transform = Option.some m)
    (hw : 1 ≤ c.screen_width) (hh : 1 ≤ c.screen_height) :
    0 ≤ (c.transform_gaze gaze).1 ∧ (c.transform_gaze gaze).1 ≤ c.screen_width - 1 ∧
    0 ≤ (c.transform_gaze gaze).2 ∧ (c.transform_gaze gaze).2 ≤ c.screen_height - 1 := by
  have hw' : (0 : ℚ) ≤ (c.screen_width : ℚ) - 1 := by
    have : (1 : ℚ) ≤ (c.screen_width : ℚ) := by exact_mod_cast hw
    linarith
  have hh' : (0 : ℚ) ≤ (c.screen_height : ℚ) - 1 := by
    have : (1 : ℚ) ≤ (c.screen_height : ℚ) := by exact_mod_cast hh
    linarith
  unfold Calibrator.transform_gaze
  rw [ht]
  have bx := pyInt_bounds
    (npClip (perspectiveTransform m gaze).1 0 ((c.screen_width : ℚ) - 1))
    (c.screen_width - 1)
    (le_min (le_max_right _ _) hw')
    (by push_cast; exact min_le_right _ _)
  have by' := pyInt_bounds
    (npClip (perspectiveTransform m gaze).2 0 ((c.screen_height : ℚ) - 1))
    (c.screen_height - 1)
    (le_min (le_max_right _ _) hh')
    (by push_cast; exact min_le_right _ _)
  exact ⟨bx.1, bx.2, by'.1, by'.2⟩

/-- C2 (amended) witness: the calibrated 100×100 calibrator clamps the
out-of-range gaze `(5, -3)` into screen bounds. -/
theorem transform_gaze_clamped_witness :
    0 ≤ (calibratedCal.transform_gaze (5, -3)).1 ∧
    (calibratedCal.transform_gaze (5, -3)).1 ≤ calibratedCal.screen_width - 1 ∧
    0 ≤ (calibratedCal.transform_gaze (5, -3)).2 ∧
    (calibratedCal.transform_gaze (5, -3)).2 ≤ calibratedCal.screen_height - 1 :=
  transform_gaze_clamped_with_homography calibratedCal idH (5, -3)
    (by norm_num [calibratedCal, fallbackCal, initCalibrator])
    (by norm_num [calibratedCal, fallbackCal, initCalibrator])
    (by norm_num [calibratedCal, fallbackCal, initCalibrator])

/-! ## C6: calibration persistence round-trip -/

/-- C6: for a calibrator with a fitted transform, `save` followed by `load` of
the written file restores the calibrator exactly — transform matrix and
collected points included — so `transform_gaze` after the load equals
`transform_gaze` before the save on every gaze (exactly in the rational model;
"within floating-point tolerance" in the float original). -/
theorem save_load_roundtrip (c : Calibrator) (f : CalibrationFile) (gaze : ℚ × ℚ)
    (h : c.save = Option.some f) :
    c.load f = c ∧ (c.load f).transform_gaze gaze = c.transform_gaze gaze := by
  have hload : c.load f = c := by
    unfold Calibrator.save at h
    cases ht : c.transform with
    | none => rw [ht] at h; exact absurd h (by simp)
    | some m =>
      rw [ht] at h
      have hf : f = ⟨m, c.collected_points, (c.screen_width, c.screen_height)⟩ := by
        injection h with h'
        exact h'.symm
      subst hf
      unfold Calibrator.load
      cases c
      simp_all
  exact ⟨hload, by rw [hload]⟩

/-- C6 witness: the concrete calibrated calibrator round-trips through its
saved file, and `transform_gaze` at the gaze `(1/4, 3/4)` is unchanged. -/
theorem save_load_roundtrip_witness :
    calibratedCal.load savedFile = calibratedCal ∧
    (calibratedCal.load savedFile).transform_gaze (1/4, 3/4)
      = calibratedCal.transform_gaze (1/4, 3/4) :=
  save_load_roundtrip calibratedCal savedFile (1/4, 3/4) rfl

/-! ## C3: `Calibrator.stop` and run atomicity -/

/-- C3 counterexample: `stop()` does **not** discard the in-progress target's
partial gaze samples.  On the concrete 100×100 five-point calibrator: `start`
at time 0, one on-target update at time 1 (gaze exactly on the first target,
the screen centre, i.e. `(1/2, 1/2)` normalised), then `stop` — the partial
sample is still in the state after `stop`, contradicting the claim that
stopping discards it. -/
theorem stop_retains_partial_samples :
    ((((cal5.start 0).update id (fun _ => Option.none) 1
        (Option.some (1/2, 1/2))).1.stop).gaze_samples = [(1/2, 1/2)]) ∧
    ((((cal5.start 0).update id (fun _ => Option.none) 1
        (Option.some (1/2, 1/2))).1.stop).is_active = false) := by
  norm_num [cal5, initCalibrator, Calibrator.start, Calibrator.update,
    Calibrator.stop, Calibrator.is_gaze_on_target, generate_grid, pyInt]

/-- Any single `update` call either leaves the transform untouched or reports
the session complete. -/
lemma update_transform_or_complete (c : Calibrator) (sqrt : ℚ → ℚ)
    (fit : List CalibrationPoint → Option Homography) (now : ℚ)
    (gaze : Option (ℚ × ℚ)) :
    (c.update sqrt fit now gaze).1.transform = c.transform ∨
    (c.update sqrt fit now gaze).2.1 = true := by
  unfold Calibrator.update
  by_cases h1 : (!c.is_active) = true
  · rw [if_pos h1]
    exact Or.inr rfl
  rw [if_neg h1]
  by_cases h2 : c.target_points.length ≤ c.current_index
  · rw [if_pos h2]
    exact Or.inr rfl
  rw [if_neg h2]
  rcases gaze with _ | g <;> dsimp only <;> split_ifs <;>
    first
      | exact Or.inr rfl
      | exact Or.inl rfl

/-- C3 amended: `stop()` only deactivates the session; the in-progress
target's partial samples and the points finalized within the run remain in the
state until the next `start()`, which is what clears them.  The atomicity part
of the claim does hold: `stop` never changes the transform, an inactive
calibrator is never mutated by `update`, and any `update` call that does not
complete the whole run leaves the transform untouched — so the held transform
is always either a complete fit or exactly the pre-run one. -/
theorem stop_deactivates_only_and_run_atomic (c : Calibrator) (sqrt : ℚ → ℚ)
    (fit : List CalibrationPoint → Option Homography) (now : ℚ)
    (gaze : Option (ℚ × ℚ)) :
    c.stop.is_active = false ∧
    c.stop.transform = c.transform ∧
    c.stop.collected_points = c.collected_points ∧
    c.stop.gaze_samples = c.gaze_samples ∧
    (c.start now).collected_points = [] ∧
    (c.start now).gaze_samples = [] ∧
    (c.start now).transform = c.transform ∧
    (c.is_active = false → (c.update sqrt fit now gaze).1 = c) ∧
    ((c.update sqrt fit now gaze).2.1 = false →
      (c.update sqrt fit now gaze).1.transform = c.transform) := by
  refine ⟨rfl, rfl, rfl, rfl, rfl, rfl, rfl, ?_, ?_⟩
  · intro h
    simp [Calibrator.update, h]
  · intro h
    rcases update_transform_or_complete c sqrt fit now gaze with ht | hc
    · exact ht
    · rw [hc] at h
      exact absurd h (by simp)

/-! ## C1: simultaneous bilateral blink -/

/-- C1: a simultaneous bilateral closed-then-open transition does **not**
yield a `Both` event.  With threshold `21/100`, `consecutive_frames = 2`,
cooldown `35/100`, smoothing window 3: two frames with both raw EARs `1/10`
(both eyes closed; both consecutive-closed counters reach 2 ≥
`consecutive_frames`, overlapping in time), then both eyes opening in the same
update (raw EARs `1/2`), emits no event at all — the `was_closed` latches are
never set in the both-eyes-closed branch of `_check_blinks`, so the `BOTH`
merge is unreachable.  (No `Left`+`Right` pair is emitted either: the run's
event list is empty.) -/
theorem simultaneous_bilateral_blink_emits_nothing :
    ((runDetector (initBlinkDetector (21/100) 2 (35/100) 3)
        [(1, 1/10, 1/10), (2, 1/10, 1/10)]).1.left_closed_count = 2) ∧
    ((runDetector (initBlinkDetector (21/100) 2 (35/100) 3)
        [(1, 1/10, 1/10), (2, 1/10, 1/10)]).1.right_closed_count = 2) ∧
    ((runDetector (initBlinkDetector (21/100) 2 (35/100) 3)
        [(1, 1/10, 1/10), (2, 1/10, 1/10)]).1.left_ear < 21/100) ∧
    ((runDetector (initBlinkDetector (21/100) 2 (35/100) 3)
        [(1, 1/10, 1/10), (2, 1/10, 1/10)]).1.right_ear < 21/100) ∧
    ((runDetector (initBlinkDetector (21/100) 2 (35/100) 3)
        [(1, 1/10, 1/10), (2, 1/10, 1/10), (3, 1/2, 1/2)]).2 = []) := by
  norm_num [runDetector, BlinkDetector.detect, BlinkDetector.smoothed, initBlinkDetector,
    dequeAppend, listMean, BlinkDetector.checkBlinks, BlinkDetector.resetCounts]

/-! ## C5: global cooldown separates events -/

/-- `_check_blinks` never touches the cooldown setting or the last-blink
timestamp. -/
lemma checkBlinks_preserves_time_fields (d : BlinkDetector) (lc rc : Bool) :
    (d.checkBlinks lc rc).2.cooldown = d.cooldown ∧
    (d.checkBlinks lc rc).2.last_blink_time = d.last_blink_time := by
  unfold BlinkDetector.checkBlinks BlinkDetector.resetCounts
  cases lc <;> cases rc <;>
    cases hL : d.left_was_closed <;> cases hR : d.right_was_closed <;>
      simp [hL, hR]

/-- Per-call case analysis of `detect`: the cooldown setting is preserved, and
either no event is emitted and the last-blink timestamp is unchanged, or one
event stamped `now` is emitted, the last-blink timestamp becomes `now`, and
`now` is at least `cooldown` after the previous last-blink timestamp. -/
lemma detect_cases (d : BlinkDetector) (now l r : ℚ) :
    (d.detect now l r).2.cooldown = d.cooldown ∧
    (((d.detect now l r).1 = Option.none ∧
        (d.detect now l r).2.last_blink_time = d.last_blink_time) ∨
      (∃ e : BlinkEvent, (d.detect now l r).1 = Option.some e ∧ e.timestamp = now ∧
        (d.detect now l r).2.last_blink_time = now ∧
        d.last_blink_time + d.cooldown ≤ now)) := by
  unfold BlinkDetector.detect
  by_cases hcd : now - d.last_blink_time < d.cooldown
  · rw [if_pos hcd]
    exact ⟨rfl, Or.inl ⟨rfl, rfl⟩⟩
  rw [if_neg hcd]
  dsimp only
  obtain ⟨hc, hl⟩ := checkBlinks_preserves_time_fields (d.smoothed l r)
    (decide ((d.smoothed l r).left_ear < (d.smoothed l r).ear_threshold))
    (decide ((d.smoothed l r).right_ear < (d.smoothed l r).ear_threshold))
  split_ifs with hne
  · exact ⟨hc, Or.inr ⟨_, rfl, rfl, rfl, by linarith [not_lt.mp hcd]⟩⟩
  · exact ⟨hc, Or.inl ⟨rfl, hl⟩⟩

/-- Run-level invariant behind C5: along any input sequence, the emitted
events are pairwise separated by at least the (fixed, nonnegative) cooldown,
and every emitted event is stamped at least `cooldown` after the initial
last-blink timestamp. -/
lemma runDetector_gap_invariant (d : BlinkDetector) (inputs : List (ℚ × ℚ × ℚ))
    (h0 : 0 ≤ d.cooldown) :
    ((runDetector d inputs).2).Pairwise
        (fun a b => a.timestamp + d.cooldown ≤ b.timestamp) ∧
    (∀ e ∈ (runDetector d inputs).2, d.last_blink_time + d.cooldown ≤ e.timestamp) := by
  induction inputs generalizing d with
  | nil => simp [runDetector]
  | cons f rest ih =>
    obtain ⟨hcd, hcase⟩ := detect_cases d f.1 f.2.1 f.2.2
    have h0' : 0 ≤ (d.detect f.1 f.2.1 f.2.2).2.cooldown := by rw [hcd]; exact h0
    obtain ⟨ihp, ihlast⟩ := ih (d.detect f.1 f.2.1 f.2.2).2 h0'
    rw [hcd] at ihp ihlast
    rcases hcase with ⟨hnone, hlast⟩ | ⟨e, hsome, het, hlast, hge⟩
    · rw [hlast] at ihlast
      simpa [runDetector, hnone] using ⟨ihp, ihlast⟩
    · rw [hlast] at ihlast
      refine ⟨?_, ?_⟩ <;> simp only [runDetector, hsome, Option.toList_some,
        List.singleton_append]
      · exact List.Pairwise.cons
          (fun b hb => by rw [het]; exact ihlast b hb) ihp
      · intro e' he'
        rcases List.mem_cons.mp he' with rfl | he'
        · rw [het]; exact hge
        · have := ihlast e' he'
          linarith

/-- C5: with a fixed nonnegative cooldown setting, no two events emitted over
any execution of the detector have timestamps closer than `cooldown`; in
particular this holds for two events of the same eye. -/
theorem cooldown_separates_events (d : BlinkDetector) (inputs : List (ℚ × ℚ × ℚ))
    (h0 : 0 ≤ d.cooldown) :
    ((runDetector d inputs).2).Pairwise
      (fun a b => d.cooldown ≤ b.timestamp - a.timestamp) := by
  exact (runDetector_gap_invariant d inputs h0).1.imp (fun h => by linarith)

/-- C5 witness: a concrete execution emitting two left-eye blinks (at times 4
and 9), pairwise separated by at least the cooldown `35/100`. -/
theorem cooldown_separates_events_witness :
    ((runDetector (initBlinkDetector (21/100) 2 (35/100) 3)
        [(1, 0, 1/2), (2, 0, 1/2), (3, 1/2, 1/2), (4, 1/2, 1/2),
         (5, 0, 1/2), (6, 0, 1/2), (7, 0, 1/2), (8, 1/2, 1/2), (9, 1/2, 1/2)]).2).Pairwise
      (fun a b => (initBlinkDetector (21/100) 2 (35/100) 3).cooldown
        ≤ b.timestamp - a.timestamp) :=
  cooldown_separates_events (initBlinkDetector (21/100) 2 (35/100) 3) _
    (by norm_num [initBlinkDetector])

/-! ## C4: N closed frames then one open frame -/

/-- Running the detector over a concatenation: run the prefix, then the suffix
from the reached state, concatenating the emitted events. -/
lemma runDetector_append (d : BlinkDetector) (xs ys : List (ℚ × ℚ × ℚ)) :
    runDetector d (xs ++ ys) =
      ((runDetector (runDetector d xs).1 ys).1,
        (runDetector d xs).2 ++ (runDetector (runDetector d xs).1 ys).2) := by
  induction xs generalizing d with
  | nil => simp [runDetector]
  | cons f rest ih =>
    simp [runDetector, ih, List.append_assoc]

/-- Appending the same value to a saturating buffer of that value. -/
lemma dequeAppend_replicate_same (i : ℕ) (x : ℚ) :
    dequeAppend 3 (List.replicate (min i 3) x) x = List.replicate (min (i + 1) 3) x := by
  unfold dequeAppend
  rcases le_or_lt (i + 1) 3 with h | h
  · have h1 : min i 3 = i := min_eq_left (by omega)
    have h2 : min (i + 1) 3 = i + 1 := min_eq_left h
    rw [h1, h2, if_pos (by simp; omega)]
    exact (List.replicate_succ' i x).symm
  · have h1 : min i 3 = 3 := min_eq_right (by omega)
    have h2 : min (i + 1) 3 = 3 := min_eq_right (by omega)
    rw [h1, h2]
    norm_num [List.replicate]

/-- Appending a fresh value to a buffer holding at least two old values. -/
lemma dequeAppend_replicate_other (i : ℕ) (x y : ℚ) (h : 2 ≤ i) :
    dequeAppend 3 (List.replicate (min i 3) x) y = [x, x, y] := by
  unfold dequeAppend
  rcases eq_or_lt_of_le h with rfl | h3
  · norm_num [List.replicate]
  · have h1 : min i 3 = 3 := min_eq_right (by omega)
    rw [h1]
    norm_num [List.replicate]

/-- The rolling mean of a constant buffer. -/
lemma listMean_replicate (n : ℕ) (x : ℚ) (h : 1 ≤ n) :
    listMean (List.replicate n x) = x := by
  unfold listMean
  rw [List.sum_replicate, List.length_replicate, nsmul_eq_mul, mul_comm,
    mul_div_assoc, div_self (Nat.cast_ne_zero.mpr (by omega)), mul_one]

/-- One closed frame of the synthetic sequence advances `closedState i` to
`closedState (i+1)` and emits nothing. -/
lemma closed_step (b : Bool) (th : ℚ) (k : ℕ) (cd t0 e_low e_high : ℚ)
    (hl : e_low < th) (hr : th ≤ e_high) (hcd : cd ≤ t0) (i : ℕ) :
    (closedState b th k cd e_low e_high i).detect
        (closedFrame b t0 e_low e_high i).1
        (closedFrame b t0 e_low e_high i).2.1
        (closedFrame b t0 e_low e_high i).2.2 =
      (Option.none, closedState b th k cd e_low e_high (i + 1)) := by
  have hfl : decide (e_low < th) = true := decide_eq_true hl
  have hfr : decide (e_high < th) = false := decide_eq_false (not_lt.mpr hr)
  cases b <;> rcases i with _ | j
  · -- right eye, first closed frame
    simp only [closedFrame, closedState, initBlinkDetector, BlinkDetector.detect,
      BlinkDetector.smoothed, dequeAppend, listMean, Bool.false_eq_true, if_false]
    norm_num [hfl, hfr, BlinkDetector.checkBlinks]
    exact hcd
  · -- right eye, subsequent closed frame
    simp only [closedFrame, closedState, BlinkDetector.detect, BlinkDetector.smoothed,
      Bool.false_eq_true, if_false]
    rw [dequeAppend_replicate_same (j + 1) e_high, dequeAppend_replicate_same (j + 1) e_low]
    rw [listMean_replicate (min (j + 1 + 1) 3) e_high (by omega),
      listMean_replicate (min (j + 1 + 1) 3) e_low (by omega)]
    rw [hfl, hfr]
    norm_num [BlinkDetector.checkBlinks]
    have : (0 : ℚ) ≤ (j : ℚ) := Nat.cast_nonneg j
    linarith
  · -- left eye, first closed frame
    simp only [closedFrame, closedState, initBlinkDetector, BlinkDetector.detect,
      BlinkDetector.smoothed, dequeAppend, listMean, if_true]
    norm_num [hfl, hfr, BlinkDetector.checkBlinks]
    exact hcd
  · -- left eye, subsequent closed frame
    simp only [closedFrame, closedState, BlinkDetector.detect, BlinkDetector.smoothed,
      if_true]
    rw [dequeAppend_replicate_same (j + 1) e_low, dequeAppend_replicate_same (j + 1) e_high]
    rw [listMean_replicate (min (j + 1 + 1) 3) e_low (by omega),
      listMean_replicate (min (j + 1 + 1) 3) e_high (by omega)]
    rw [hfl, hfr]
    norm_num [BlinkDetector.checkBlinks]
    have : (0 : ℚ) ≤ (j : ℚ) := Nat.cast_nonneg j
    linarith

/-- Running the whole closed prefix from a fresh detector reaches
`closedState i` and emits nothing. -/
lemma run_closed_prefix (b : Bool) (th : ℚ) (k : ℕ) (cd t0 e_low e_high : ℚ)
    (hl : e_low < th) (hr : th ≤ e_high) (hcd : cd ≤ t0) (i : ℕ) :
    runDetector (initBlinkDetector th k cd 3)
        ((List.range i).map (closedFrame b t0 e_low e_high)) =
      (closedState b th k cd e_low e_high i, []) := by
  induction i with
  | zero => simp [runDetector, closedState]
  | succ i ih =>
    rw [List.range_succ, List.map_append, runDetector_append, ih]
    simp only [List.map_cons, List.map_nil, runDetector]
    rw [closed_step b th k cd t0 e_low e_high hl hr hcd i]
    simp

/-- The final open frame of the synthetic sequence: the closed eye's
classification flips to open, and exactly one event of the correct eye is
emitted iff the consecutive-closed count `N` reached `consecutive_frames`. -/
lemma final_step (b : Bool) (th : ℚ) (k : ℕ) (cd t0 e_low e_high : ℚ) (N : ℕ)
    (hk : 1 ≤ k) (hl : e_low < th) (hr : th ≤ e_high)
    (h2 : th ≤ (e_low + e_high) / 2) (h3 : th ≤ (2 * e_low + e_high) / 3)
    (hcd : cd ≤ t0) :
    (((closedState b th k cd e_low e_high N).detect (t0 + (N : ℚ)) e_high e_high).1.toList.map
        (fun e => (e.blink_type, e.timestamp)))
      = if k ≤ N then [(if b then BlinkType.left else BlinkType.right, t0 + (N : ℚ))]
        else [] := by
  have hfr : decide (e_high < th) = false := decide_eq_false (not_lt.mpr hr)
  have hopen2 : ¬ (listMean [e_high, e_high] < th) := by
    refine not_lt.mpr ?_
    simp only [listMean, List.sum_cons, List.sum_nil, List.length_cons, List.length_nil]
    push_cast
    linarith
  have hopen3 : ¬ (listMean [e_high, e_high, e_high] < th) := by
    refine not_lt.mpr ?_
    simp only [listMean, List.sum_cons, List.sum_nil, List.length_cons, List.length_nil]
    push_cast
    linarith
  have hcl2 : ¬ (listMean [e_low, e_high] < th) := by
    refine not_lt.mpr ?_
    simp only [listMean, List.sum_cons, List.sum_nil, List.length_cons, List.length_nil]
    push_cast
    linarith
  have hcl3 : ¬ (listMean [e_low, e_low, e_high] < th) := by
    refine not_lt.mpr ?_
    simp only [listMean, List.sum_cons, List.sum_nil, List.length_cons, List.length_nil]
    push_cast
    linarith
  rcases N with _ | j
  · rw [if_neg (by omega)]
    cases b <;>
      · simp only [closedState, initBlinkDetector, BlinkDetector.detect,
          BlinkDetector.smoothed, dequeAppend, listMean]
        norm_num [hfr, BlinkDetector.checkBlinks]
        split_ifs <;> rfl
  · have hbuf : ∀ x : ℚ, dequeAppend 3 (List.replicate (min (j + 1) 3) x) e_high =
        if j = 0 then [x, e_high] else [x, x, e_high] := by
      intro x
      rcases j with _ | j2
      · norm_num [dequeAppend, List.replicate]
      · rw [if_neg (by omega)]
        exact dequeAppend_replicate_other (j2 + 2) x e_high (by omega)
    have hc : (0 : ℚ) ≤ (j : ℚ) := Nat.cast_nonneg j
    rcases Nat.eq_zero_or_pos j with rfl | hj
    · by_cases hkN : k ≤ 0 + 1
      · rw [if_pos hkN]
        cases b <;>
          · simp only [closedState, BlinkDetector.detect, BlinkDetector.smoothed, hbuf]
            norm_num [hopen2, hcl2, hkN, BlinkDetector.checkBlinks]
            split_ifs <;>
              first
                | contradiction
                | (exfalso; linarith)
                | (exfalso; omega)
                | simp
      · rw [if_neg hkN]
        cases b <;>
          · simp only [closedState, BlinkDetector.detect, BlinkDetector.smoothed, hbuf]
            norm_num [hopen2, hcl2, hkN, BlinkDetector.checkBlinks]
            split_ifs <;> rfl
    · have hj0 : ¬ (j = 0) := by omega
      by_cases hkN : k ≤ j + 1
      · rw [if_pos hkN]
        cases b <;>
          · simp only [closedState, BlinkDetector.detect, BlinkDetector.smoothed, hbuf]
            norm_num [hopen3, hcl3, hkN, hj0, BlinkDetector.checkBlinks]
            split_ifs <;>
              first
                | contradiction
                | (exfalso; linarith)
                | (exfalso; omega)
                | simp
      · rw [if_neg hkN]
        cases b <;>
          · simp only [closedState, BlinkDetector.detect, BlinkDetector.smoothed, hbuf]
            norm_num [hopen3, hcl3, hkN, hj0, BlinkDetector.checkBlinks]
            split_ifs <;> rfl

/-- C4: from a fresh detector (threshold `th`, `consecutive_frames = k ≥ 1`,
cooldown `cd`, smoothing window 3), a synthetic sequence of `N` consecutive
frames in which one eye's raw EAR is `e_low` (below the threshold, with the
other eye at `e_high`, at or above it) followed by one frame with both eyes at
`e_high` emits exactly one `BlinkEvent` of the correct eye, stamped at the
final frame, iff `N ≥ k`, and emits nothing when `N < k`.  The hypotheses on
`(e_low + e_high)/2` and `(2·e_low + e_high)/3` state that the final frame's
rolling mean clears the threshold (so the smoothed signal reopens), and
`cd ≤ t0` places the first frame outside the initial cooldown window. -/
theorem single_eye_blink_iff_enough_frames (b : Bool) (th : ℚ) (k : ℕ)
    (cd t0 e_low e_high : ℚ) (N : ℕ)
    (hk : 1 ≤ k) (hl : e_low < th) (hr : th ≤ e_high)
    (h2 : th ≤ (e_low + e_high) / 2) (h3 : th ≤ (2 * e_low + e_high) / 3)
    (hcd : cd ≤ t0) :
    (((runDetector (initBlinkDetector th k cd 3) (singleEyeRun b t0 N e_low e_high)).2).map
        (fun e => (e.blink_type, e.timestamp)))
      = if k ≤ N then [(if b then BlinkType.left else BlinkType.right, t0 + (N : ℚ))]
        else [] := by
  unfold singleEyeRun
  rw [runDetector_append, run_closed_prefix b th k cd t0 e_low e_high hl hr hcd N]
  rw [← final_step b th k cd t0 e_low e_high N hk hl hr h2 h3 hcd]
  simp [runDetector]

/-- C4 witness: for threshold `21/100`, `consecutive_frames = 2`, cooldown
`35/100`, a left-eye run with `N = 2` closed frames (raw EAR `1/10`, other eye
`1/2`) starting at time 1 emits exactly one left event at time 3. -/
theorem single_eye_blink_iff_enough_frames_witness :
    (((runDetector (initBlinkDetector (21/100) 2 (35/100) 3)
          (singleEyeRun true 1 2 (1/10) (1/2))).2).map
        (fun e => (e.blink_type, e.timestamp)))
      = if 2 ≤ 2 then
          [(if true then BlinkType.left else BlinkType.right, 1 + ((2 : ℕ) : ℚ))]
        else [] :=
  single_eye_blink_iff_enough_frames true (21/100) 2 (35/100) 1 (1/10) (1/2) 2
    (by norm_num) (by norm_num) (by norm_num) (by norm_num) (by norm_num) (by norm_num)

/-! ## Supporting invariant for C1: `BOTH` is unreachable -/

/-- The two `was_closed` latches are never simultaneously set (they are set
only in the mutually exclusive one-eye-closed branches), and under that
invariant `_check_blinks` can never produce `BOTH`. -/
lemma checkBlinks_no_both (d : BlinkDetector) (lc rc : Bool)
    (h : d.left_was_closed = false ∨ d.right_was_closed = false) :
    (d.checkBlinks lc rc).1 ≠ BlinkType.both ∧
    ((d.checkBlinks lc rc).2.left_was_closed = false ∨
      (d.checkBlinks lc rc).2.right_was_closed = false) := by
  unfold BlinkDetector.checkBlinks BlinkDetector.resetCounts
  cases lc <;> cases rc <;>
    cases hL : d.left_was_closed <;> cases hR : d.right_was_closed <;>
      simp_all <;> split_ifs <;> simp_all

/-- `detect` from a state respecting the latch invariant never emits a `BOTH`
event and preserves the invariant. -/
lemma detect_no_both (d : BlinkDetector) (now l r : ℚ)
    (h : d.left_was_closed = false ∨ d.right_was_closed = false) :
    (∀ e, (d.detect now l r).1 = Option.some e → e.blink_type ≠ BlinkType.both) ∧
    ((d.detect now l r).2.left_was_closed = false ∨
      (d.detect now l r).2.right_was_closed = false) := by
  unfold BlinkDetector.detect
  by_cases hcd : now - d.last_blink_time < d.cooldown
  · rw [if_pos hcd]
    exact ⟨fun e he => by simp at he, h⟩
  rw [if_neg hcd]
  dsimp only
  obtain ⟨h1, h2⟩ := checkBlinks_no_both (d.smoothed l r)
    (decide ((d.smoothed l r).left_ear < (d.smoothed l r).ear_threshold))
    (decide ((d.smoothed l r).right_ear < (d.smoothed l r).ear_threshold)) h
  split_ifs with hne
  · refine ⟨?_, h2⟩
    intro e he
    injection he with he'
    rw [← he']
    exact h1
  · exact ⟨fun e he => by simp at he, h2⟩

/-- Along any input sequence from a freshly constructed detector, no emitted
event ever has type `BOTH`: the `BOTH` merge of `_check_blinks` is dead code. -/
lemma runDetector_never_emits_both (th : ℚ) (k : ℕ) (cd : ℚ) (sm : ℕ)
    (inputs : List (ℚ × ℚ × ℚ)) :
    ∀ e ∈ (runDetector (initBlinkDetector th k cd sm) inputs).2,
      e.blink_type ≠ BlinkType.both := by
  suffices hgen : ∀ (inputs : List (ℚ × ℚ × ℚ)) (d : BlinkDetector),
      d.left_was_closed = false ∨ d.right_was_closed = false →
      ∀ e ∈ (runDetector d inputs).2, e.blink_type ≠ BlinkType.both by
    exact hgen inputs (initBlinkDetector th k cd sm) (Or.inl rfl)
  intro inputs
  induction inputs with
  | nil => intro d _ e he; simp [runDetector] at he
  | cons f rest ih =>
    intro d hd e he
    obtain ⟨h1, h2⟩ := detect_no_both d f.1 f.2.1 f.2.2 hd
    simp only [runDetector, List.mem_append] at he
    rcases he with he | he
    · rcases ho : (d.detect f.1 f.2.1 f.2.2).1 with _ | e'
      · simp [ho] at he
      · rw [ho] at he
        simp only [Option.toList_some, List.mem_singleton] at he
        subst he
        exact h1 e ho
    · exact ih (d.detect f.1 f.2.1 f.2.2).2 h2 e he

end EyeMouse
